import Mathlib

/-!
Shallow embedding of `src/web.py`: a single-page clinical decision-support
form that encodes categorical and numeric aneurysm-treatment parameters,
feeds them to a pre-trained binary classifier, and renders a
recurrence/thrombosis risk probability with a threshold-based label.

Python floats are modelled as `ℚ`; the classifier is an opaque function
from the assembled feature frame to `Except String ℚ` (an `Except.error`
models a Python exception raised by `predict_proba`); Python dictionary
lookup is `List.lookup` over association lists kept in source insertion
order.
-/

/-- The categorical encoding tables (`mapping_dict` in `src/web.py`,
lines 38-79), one association list per field, entries in source insertion
order. A field name outside the seven tables has no entries. -/
def mapping_dict : String → List (String × Nat)
  | "ThrombolysisAfterTirofiban" => [("No", 0), ("Yes", 1)]
  | "StentType" =>
      [("LVIS", 0), ("Enterprise", 1), ("Solitaire", 2),
       ("Flow Diverter", 3), ("Other", 4)]
  | "Morphology" => [("Saccular", 0), ("Irregular", 1), ("Fusiform", 2)]
  | "Rupture" => [("Unruptured", 0), ("Ruptured", 1)]
  | "EmbolizationTechnique" =>
      [("Simple Coiling", 0), ("Balloon-Assisted", 1), ("Stent-Assisted", 2)]
  | "AngioAndTreatment" => [("Type A", 0), ("Type B", 1), ("Type C", 2)]
  | "HeparinTiming" =>
      [("Pre-operative", 0), ("Intra-operative", 1), ("Post-operative", 2)]
  | _ => []

/-- The seven categorical field names, in the order they appear in
`mapping_dict`. -/
def categoricalFields : List String :=
  ["ThrombolysisAfterTirofiban", "StentType", "Morphology", "Rupture",
   "EmbolizationTechnique", "AngioAndTreatment", "HeparinTiming"]

/-- Function `encode field label` is the Python dictionary access
`mapping_dict[field][label]`; `none` models a `KeyError`. -/
def encode (field label : String) : Option Nat :=
  (mapping_dict field).lookup label

/-- The option list offered by a field's selectbox:
`list(mapping_dict[field].keys())` (`src/web.py` lines 87-139). -/
def field_options (field : String) : List String :=
  (mapping_dict field).map Prod.fst

/-- A Streamlit `st.selectbox`: the widget can only be in a state that is
one of its options, addressed by index; the default index is 0. An index
outside the option list is unreachable through the widget (`none`). -/
def selectbox (options : List String) (index : Nat) : Option String :=
  options.get? index

/-- The configuration of a Streamlit `st.number_input` widget. -/
structure NumberInput where
  minValue : ℚ
  maxValue : ℚ
  value : ℚ
  step : ℚ

/-- The value a `st.number_input` widget holds: the default `value` when the
operator has not typed anything, otherwise the typed value clamped by the
input surface to `[minValue, maxValue]`. -/
def NumberInput.collect (w : NumberInput) (typed : Option ℚ) : ℚ :=
  max w.minValue (min w.maxValue (typed.getD w.value))

/-- Widget `input_width` (`src/web.py` lines 118-121): Aneurysm Width (mm),
`min_value=0.0, max_value=50.0, value=5.0, step=0.1`. -/
def input_width : NumberInput := ⟨0, 50, 5, 1/10⟩

/-- Widget `input_neck` (`src/web.py` lines 124-127): Aneurysm Neck (mm),
`min_value=0.0, max_value=30.0, value=3.0, step=0.1`. -/
def input_neck : NumberInput := ⟨0, 30, 3, 1/10⟩

/-- The operator-selected values the script reads from the nine sidebar
widgets: one label per categorical selectbox, one number per numeric
input. -/
structure Selections where
  thrombolysis : String
  stent : String
  morphology : String
  rupture : String
  technique : String
  width : ℚ
  neck : ℚ
  angio : String
  heparin : String

/-- The widgets' default state: every selectbox at index 0 (its first
option), every number input at its default `value`. -/
def defaultSelections : Selections where
  thrombolysis := (field_options "ThrombolysisAfterTirofiban").headD ""
  stent := (field_options "StentType").headD ""
  morphology := (field_options "Morphology").headD ""
  rupture := (field_options "Rupture").headD ""
  technique := (field_options "EmbolizationTechnique").headD ""
  width := input_width.collect none
  neck := input_neck.collect none
  angio := (field_options "AngioAndTreatment").headD ""
  heparin := (field_options "HeparinTiming").headD ""

/-- Assembly `input_data` (`src/web.py` lines 149-159): the feature vector as an
ordered association list of column name to numeric value, categorical
labels replaced by their `mapping_dict` codes. `none` models the `KeyError`
a label outside its table would raise. -/
def input_data (s : Selections) : Option (List (String × ℚ)) :=
  match encode "ThrombolysisAfterTirofiban" s.thrombolysis,
        encode "StentType" s.stent,
        encode "Morphology" s.morphology,
        encode "Rupture" s.rupture,
        encode "EmbolizationTechnique" s.technique,
        encode "AngioAndTreatment" s.angio,
        encode "HeparinTiming" s.heparin with
  | some a, some b, some c, some d, some e, some f, some g =>
      some [("ThrombolysisAfterTirofiban", (a : ℚ)),
            ("StentType", (b : ℚ)),
            ("Morphology", (c : ℚ)),
            ("Rupture", (d : ℚ)),
            ("EmbolizationTechnique", (e : ℚ)),
            ("Width", s.width),
            ("Neck", s.neck),
            ("AngioAndTreatment", (f : ℚ)),
            ("HeparinTiming", (g : ℚ))]
  | _, _, _, _, _, _, _ => none

/-- The fixed column order of the feature vector, as the training data
expects it. -/
def featureOrder : List String :=
  ["ThrombolysisAfterTirofiban", "StentType", "Morphology", "Rupture",
   "EmbolizationTechnique", "Width", "Neck", "AngioAndTreatment",
   "HeparinTiming"]

/-- Round-half-even (banker's rounding) of a rational to an integer, the
rounding Python's string formatting applies to the last kept digit. Uses
`Int.fdiv`/`Int.fmod` on numerator and denominator, so the quotient is the
floor (the denominator is positive). -/
def roundHalfEven (q : ℚ) : ℤ :=
  let d : ℤ := (q.den : ℤ)
  let fl : ℤ := Int.fdiv q.num d
  let r : ℤ := Int.fmod q.num d
  if 2 * r < d then fl
  else if d < 2 * r then fl + 1
  else if fl % 2 = 0 then fl else fl + 1

/-- Left-pad a (nonnegative) integer to two digits. -/
def pad2 (n : ℤ) : String :=
  if n < 10 then "0" ++ toString n else toString n

/-- The Python format `f"\x7bprob:.2%\x7d"`: the probability as a
percentage with exactly two decimal digits and a trailing percent sign.
The value is scaled by 100 (percent) and then by 100 again (hundredths of
a percent), rounded half-to-even, and split into integer and two-digit
fractional part. -/
def formatPercent2 (p : ℚ) : String :=
  let n := roundHalfEven (p * 100 * 100)
  toString (n / 100) ++ "." ++ pad2 (n % 100) ++ "%"

/-- Constant `best_threshold` (`src/web.py` line 176). -/
def best_threshold : ℚ := 1/2

/-- Function `prediction_class` (`src/web.py` line 178):
`1 if prob >= best_threshold else 0`. -/
def prediction_class (prob : ℚ) : Nat :=
  if prob ≥ best_threshold then 1 else 0

/-- The classifier handle: an opaque, externally trained artifact exposing
probability estimation over the assembled feature frame. `Except.error`
models a Python exception raised by `model.predict_proba`. -/
def Model : Type := List (String × ℚ) → Except String ℚ

/-- The high-risk banner `st.error(f"⚠️ High Risk \n(> \x7bbest_threshold\x7d)")`
with `best_threshold = 0.5`; the Python f-string renders the float as
`0.5`. -/
def highRiskLabel : String := "⚠️ High Risk \n(> 0.5)"

/-- The low-risk banner `st.success(f"✅ Low Risk \n(< \x7bbest_threshold\x7d)")`. -/
def lowRiskLabel : String := "✅ Low Risk \n(< 0.5)"

/-- The advisory `st.warning` shown only for class 1 (`src/web.py`
lines 196-197). -/
def advisoryNote : String :=
  "Note: The model predicts a high risk of recurrence/thrombosis. Close monitoring or adjustment of the treatment strategy is recommended."

/-- The result panel rendered on a successful prediction (`src/web.py`
lines 181-197): the formatted probability metric, the risk banner, the
progress-bar value, and the optional advisory text. -/
structure Report where
  probText : String
  riskLabel : String
  progress : ℚ
  advisory : Option String

/-- Render the result panel from the predicted probability, mirroring the
display section of the predict handler. -/
def renderReport (prob : ℚ) : Report where
  probText := formatPercent2 prob
  riskLabel := if prediction_class prob = 1 then highRiskLabel else lowRiskLabel
  progress := prob
  advisory := if prediction_class prob = 1 then some advisoryNote else none

/-- The observable outcome of pressing the predict button. -/
inductive PredictResult where
  | modelUnavailable (msg : String)
  | inferenceError (msg hint : String)
  | report (r : Report)

/-- The predict-button handler (`src/web.py` lines 168-203): if a model is
loaded, call `predict_proba` inside `try`; on success render the report, on
an exception show the error with the original detail and the
check-your-input hint; with no model show the model-not-loaded error. The
second component counts how many times the classifier was invoked. -/
def predictRun (model : Option Model) (df_input : List (String × ℚ)) :
    PredictResult × Nat :=
  match model with
  | some m =>
      match m df_input with
      | .ok prob => (.report (renderReport prob), 1)
      | .error e =>
          (.inferenceError ("Error during prediction: " ++ e)
            "Please check if the input data format matches the training data.", 1)
  | none => (.modelUnavailable "Model not loaded. Cannot predict.", 0)

/-- Loader `load_model` (`src/web.py` lines 21-27): if the model file does not
exist, show an operator-visible error and return no handle; otherwise
deserialize the artifact. Deserialization (`joblib.load`) may itself raise,
modelled by the `loadArtifact` argument; that exception is not caught, so
it propagates out of the loader (`Except.error`). On success the result
pairs the optional model handle with the optional error message shown. -/
def load_model (pathExists : Bool) (loadArtifact : Except String Model) :
    Except String (Option Model × Option String) :=
  if pathExists then loadArtifact.map (fun m => (some m, none))
  else .ok (none, some "Model file not found. Please check the path: XGB.pkl")

/-- A stub classifier returning probability 0.73 regardless of input. -/
def stubClassifier : Model := fun _ => .ok (73/100)

/-- The feature frame produced by the widgets' default state: every
categorical at its first option (code 0), Width 5.0, Neck 3.0. -/
def exampleDF : List (String × ℚ) :=
  [("ThrombolysisAfterTirofiban", 0), ("StentType", 0), ("Morphology", 0),
   ("Rupture", 0), ("EmbolizationTechnique", 0), ("Width", 5), ("Neck", 3),
   ("AngioAndTreatment", 0), ("HeparinTiming", 0)]

/-- C1: `prediction_class` assigns class 1 exactly when the probability is
at least the fixed threshold 0.5 and class 0 exactly when it is below; in
particular probability 0.5 yields class 1 and 0.49999 yields class 0. -/
theorem C1_threshold_classification :
    (∀ p : ℚ, prediction_class p = 1 ↔ p ≥ (1/2 : ℚ)) ∧
    (∀ p : ℚ, prediction_class p = 0 ↔ p < (1/2 : ℚ)) ∧
    prediction_class (1/2) = 1 ∧
    prediction_class (49999/100000) = 0 := by
  refine ⟨fun p => ?_, fun p => ?_, ?_, ?_⟩
  · unfold prediction_class best_threshold
    split <;> rename_i h
    · exact iff_of_true rfl h
    · exact iff_of_false (by decide) h
  · unfold prediction_class best_threshold
    split <;> rename_i h
    · exact iff_of_false (by decide) (not_lt.mpr h)
    · exact iff_of_true rfl (lt_of_not_ge h)
  · norm_num [prediction_class, best_threshold]
  · norm_num [prediction_class, best_threshold]

/-- C2: `encode` returns the documented fixed integer for every label of
every one of the seven categorical tables (exhaustive over all 21 labels). -/
theorem C2_encoding_tables_exhaustive :
    encode "ThrombolysisAfterTirofiban" "No" = some 0 ∧
    encode "ThrombolysisAfterTirofiban" "Yes" = some 1 ∧
    encode "StentType" "LVIS" = some 0 ∧
    encode "StentType" "Enterprise" = some 1 ∧
    encode "StentType" "Solitaire" = some 2 ∧
    encode "StentType" "Flow Diverter" = some 3 ∧
    encode "StentType" "Other" = some 4 ∧
    encode "Morphology" "Saccular" = some 0 ∧
    encode "Morphology" "Irregular" = some 1 ∧
    encode "Morphology" "Fusiform" = some 2 ∧
    encode "Rupture" "Unruptured" = some 0 ∧
    encode "Rupture" "Ruptured" = some 1 ∧
    encode "EmbolizationTechnique" "Simple Coiling" = some 0 ∧
    encode "EmbolizationTechnique" "Balloon-Assisted" = some 1 ∧
    encode "EmbolizationTechnique" "Stent-Assisted" = some 2 ∧
    encode "AngioAndTreatment" "Type A" = some 0 ∧
    encode "AngioAndTreatment" "Type B" = some 1 ∧
    encode "AngioAndTreatment" "Type C" = some 2 ∧
    encode "HeparinTiming" "Pre-operative" = some 0 ∧
    encode "HeparinTiming" "Intra-operative" = some 1 ∧
    encode "HeparinTiming" "Post-operative" = some 2 := by
  decide

/-- The widgets' default state resolves to the first option of every
selectbox and the default value of every number input. -/
lemma defaultSelections_eq :
    defaultSelections =
      ⟨"No", "LVIS", "Saccular", "Unruptured", "Simple Coiling", 5, 3,
       "Type A", "Pre-operative"⟩ := by
  unfold defaultSelections
  congr 1

/-- Under the default widget state, the assembled feature frame is
`exampleDF`. -/
lemma input_data_default : input_data defaultSelections = some exampleDF := by
  rw [defaultSelections_eq]
  norm_num [input_data, encode, mapping_dict, exampleDF]

/-- C3: for every operator input on which assembly succeeds, the feature
vector's columns are exactly ThrombolysisAfterTirofiban, StentType,
Morphology, Rupture, EmbolizationTechnique, Width, Neck, AngioAndTreatment,
HeparinTiming, in that order, independent of the input. -/
theorem C3_feature_vector_order (s : Selections) (df : List (String × ℚ))
    (h : input_data s = some df) : df.map Prod.fst = featureOrder := by
  unfold input_data at h
  split at h
  · cases h
    rfl
  · cases h

/-- Witness for C3 at the default widget state. -/
theorem C3_feature_vector_order_witness :
    exampleDF.map Prod.fst = featureOrder :=
  C3_feature_vector_order defaultSelections exampleDF input_data_default

/-- C4: whenever the classifier raises during the predict call, the
exception is caught at the evaluation boundary and surfaced as an inference
error carrying the original failure detail plus the check-your-input hint;
the handler returns normally (no crash), the classifier is invoked exactly
once (no retry), and no report is produced (no partial result). -/
theorem C4_inference_error_caught (m : Model) (df : List (String × ℚ))
    (e : String) (h : m df = .error e) :
    predictRun (some m) df =
      (.inferenceError ("Error during prediction: " ++ e)
        "Please check if the input data format matches the training data.", 1) := by
  simp only [predictRun, h]

/-- Witness for C4 with a classifier that always raises "boom". -/
theorem C4_inference_error_caught_witness :
    predictRun (some fun _ => .error "boom") exampleDF =
      (.inferenceError "Error during prediction: boom"
        "Please check if the input data format matches the training data.", 1) :=
  C4_inference_error_caught (fun _ => .error "boom") exampleDF "boom" rfl

/-- C5: with no classifier loaded, the predict handler reports the
model-not-loaded error and the classifier probability function is invoked
zero times, for every assembled feature frame. -/
theorem C5_no_model_no_inference (df : List (String × ℚ)) :
    predictRun none df =
      (.modelUnavailable "Model not loaded. Cannot predict.", 0) := rfl

/-- The rendered report shows the formatted probability, the high-risk
banner exactly for class 1 and the low-risk banner exactly for class 0, a
progress value equal to the probability, and the advisory exactly for
class 1. -/
lemma renderReport_fields (p : ℚ) :
    (renderReport p).probText = formatPercent2 p ∧
    ((renderReport p).riskLabel = highRiskLabel ↔ prediction_class p = 1) ∧
    ((renderReport p).riskLabel = lowRiskLabel ↔ prediction_class p = 0) ∧
    (renderReport p).progress = p ∧
    ((renderReport p).advisory = some advisoryNote ↔ prediction_class p = 1) ∧
    ((renderReport p).advisory = none ↔ prediction_class p = 0) := by
  have hlabels : highRiskLabel ≠ lowRiskLabel := by decide
  unfold renderReport prediction_class
  split <;> rename_i h <;>
    simp [prediction_class, h, hlabels, hlabels.symm]

/-- C6: on every successful evaluation the report shows the probability
formatted as a two-decimal percentage, the high-risk banner iff class 1 and
the low-risk banner otherwise, a risk indicator proportional to (equal to)
the probability, and the advisory note iff class 1; at the default inputs
(all categorical codes 0, Width 5.0, Neck 3.0) a stub classifier returning
0.73 yields "73.00%", the high-risk banner, and the advisory. -/
theorem C6_report_contents :
    (∀ (m : Model) (df : List (String × ℚ)) (p : ℚ), m df = .ok p →
      predictRun (some m) df = (.report (renderReport p), 1)) ∧
    (∀ p : ℚ,
      (renderReport p).probText = formatPercent2 p ∧
      ((renderReport p).riskLabel = highRiskLabel ↔ prediction_class p = 1) ∧
      ((renderReport p).riskLabel = lowRiskLabel ↔ prediction_class p = 0) ∧
      (renderReport p).progress = p ∧
      ((renderReport p).advisory = some advisoryNote ↔ prediction_class p = 1) ∧
      ((renderReport p).advisory = none ↔ prediction_class p = 0)) ∧
    input_data defaultSelections = some exampleDF ∧
    predictRun (some stubClassifier) exampleDF =
      (.report (renderReport (73/100)), 1) ∧
    (renderReport (73/100)).probText = "73.00%" ∧
    (renderReport (73/100)).riskLabel = highRiskLabel ∧
    (renderReport (73/100)).advisory = some advisoryNote := by
  have hclass : prediction_class (73/100) = 1 := by
    norm_num [prediction_class, best_threshold]
  have hfmt : formatPercent2 ((73 : ℚ)/100) = "73.00%" := by
    have h : (73/100 * 100 * 100 : ℚ) = ((7300 : ℤ) : ℚ) := by norm_num
    rw [formatPercent2, h]
    norm_num [roundHalfEven]
    decide
  refine ⟨fun m df p h => by simp only [predictRun, h], renderReport_fields,
    input_data_default, rfl, ?_, ?_, ?_⟩
  · exact (renderReport_fields _).1.trans hfmt
  · exact ((renderReport_fields _).2.1).mpr hclass
  · exact ((renderReport_fields _).2.2.2.2.1).mpr hclass

/-- Witness for C6: the successful-evaluation branch applied to the stub
classifier on the default feature frame. -/
theorem C6_report_contents_witness :
    predictRun (some stubClassifier) exampleDF =
      (.report (renderReport (73/100)), 1) :=
  C6_report_contents.1 stubClassifier exampleDF (73/100) rfl

/-- C7: the Width widget is configured with range [0, 50], default 5.0 and
step 0.1, the Neck widget with range [0, 30], default 3.0 and step 0.1;
whatever the operator types, the collected value lies inside the range
(out-of-range values are clamped by the input surface), and an untouched
widget yields its default. -/
theorem C7_numeric_bounds :
    input_width.minValue = 0 ∧ input_width.maxValue = 50 ∧
    input_width.value = 5 ∧ input_width.step = 1/10 ∧
    input_neck.minValue = 0 ∧ input_neck.maxValue = 30 ∧
    input_neck.value = 3 ∧ input_neck.step = 1/10 ∧
    (∀ typed : Option ℚ,
      0 ≤ input_width.collect typed ∧ input_width.collect typed ≤ 50) ∧
    (∀ typed : Option ℚ,
      0 ≤ input_neck.collect typed ∧ input_neck.collect typed ≤ 30) ∧
    input_width.collect none = 5 ∧ input_neck.collect none = 3 := by
  refine ⟨rfl, rfl, rfl, rfl, rfl, rfl, rfl, rfl, fun typed => ?_,
    fun typed => ?_, ?_, ?_⟩
  · exact ⟨le_max_left _ _,
      max_le (by norm_num [input_width]) (min_le_left _ _)⟩
  · exact ⟨le_max_left _ _,
      max_le (by norm_num [input_neck]) (min_le_left _ _)⟩
  · norm_num [NumberInput.collect, input_width]
  · norm_num [NumberInput.collect, input_neck]

/-- C8 as stated is refuted for the "cannot be loaded" half: when the model
file exists but deserialization raises, `load_model` does not produce a
missing handle with an operator-visible message — the exception propagates
uncaught out of the loader. -/
theorem C8_load_failure_counterexample :
    load_model true (Except.error "corrupt artifact") =
      Except.error "corrupt artifact" := rfl

/-- C8 (amended): when the classifier artifact cannot be located (the file
does not exist), the loader completes without raising, produces no model
handle together with the operator-visible file-not-found message, and the
predict handler then refuses evaluation with the model-not-loaded error
without any inference call. -/
theorem C8_missing_file_refusal (loadArtifact : Except String Model) :
    load_model false loadArtifact =
      .ok (none, some "Model file not found. Please check the path: XGB.pkl") ∧
    (∀ df : List (String × ℚ),
      predictRun none df =
        (.modelUnavailable "Model not loaded. Cannot predict.", 0)) :=
  ⟨rfl, fun _ => rfl⟩

/-- C9: each categorical selectbox can only return a label belonging to its
field's fixed option list, and its default selection (index 0) is the first
entry of that list. -/
theorem C9_selectbox_closed_choice :
    ∀ f ∈ categoricalFields,
      (∀ (i : ℕ) (lab : String),
        selectbox (field_options f) i = some lab → lab ∈ field_options f) ∧
      selectbox (field_options f) 0 = (field_options f).head? := by
  intro f _
  exact ⟨fun _ _ h => List.get?_mem h, List.get?_zero _⟩

/-- Witness for C9 at the StentType field. -/
theorem C9_selectbox_closed_choice_witness :
    selectbox (field_options "StentType") 0 = some "LVIS" ∧
    "LVIS" ∈ field_options "StentType" := by
  have h := C9_selectbox_closed_choice "StentType" (by decide)
  have h0 : selectbox (field_options "StentType") 0 = some "LVIS" :=
    h.2.trans (by decide)
  exact ⟨h0, h.1 0 "LVIS" h0⟩

/-- C10: in every categorical table the codes, read in listed order, are
exactly 0..n-1 (so the first listed label maps to 0 and distinct labels map
to distinct codes), and consequently the default (first-entry) selections
encode every categorical field to 0 in the feature vector. -/
theorem C10_codes_contiguous :
    (∀ f ∈ categoricalFields,
      (mapping_dict f).map Prod.snd = List.range (mapping_dict f).length ∧
      ((mapping_dict f).map Prod.fst).Nodup ∧
      (mapping_dict f).head?.map Prod.snd = some 0 ∧
      (∀ p ∈ mapping_dict f, ∀ q ∈ mapping_dict f, p.1 ≠ q.1 → p.2 ≠ q.2)) ∧
    input_data defaultSelections = some exampleDF ∧
    (∀ f ∈ categoricalFields, exampleDF.lookup f = some 0) := by
  refine ⟨?_, input_data_default, ?_⟩
  · intro f hf
    fin_cases hf <;> exact ⟨by decide, by decide, by decide, by decide⟩
  · intro f hf
    fin_cases hf <;> rfl

/-- Witness for C10 at the StentType field. -/
theorem C10_codes_contiguous_witness :
    (mapping_dict "StentType").map Prod.snd =
      List.range (mapping_dict "StentType").length ∧
    exampleDF.lookup "StentType" = some 0 :=
  ⟨(C10_codes_contiguous.1 "StentType" (by decide)).1,
   C10_codes_contiguous.2.2 "StentType" (by decide)⟩
